import Mathlib

/-!
# Broker service: action dispatch and protocol adapters

A shallow embedding of `broker-service/cmd/api/handlers.go`.

Every handler writes to its `http.ResponseWriter` and talks to downstream
services.  A handler is embedded as a function from the outside world's
answers (`World`) and the handler's arguments to the list of effects it
performs, in program order (`List Event`).  Calls to the helpers
`errorJson` and `writeJson` are recorded with their arguments.
-/

namespace BrokerService

/-! ## Data model -/

/-- A Go `error` interface value: `none` is `nil`, `some msg` is a non-nil
error whose `Error()` text is `msg`. -/
abbrev GoError := Option String

/-- The Go call `errors.New(text)`: always a non-nil error. -/
def errorsNew (text : String) : GoError := some text

/-- The Go struct `AuthPayload`. -/
structure AuthPayload where
  Email : String
  Password : String
  deriving DecidableEq, Repr

/-- The Go struct `LogPayload`. -/
structure LogPayload where
  Name : String
  Data : String
  deriving DecidableEq, Repr

/-- The Go struct `MailPayload`. -/
structure MailPayload where
  From : String
  To : String
  Subject : String
  Message : String
  deriving DecidableEq, Repr

/-- The Go struct `RequestPayload`. -/
structure RequestPayload where
  Action : String
  Auth : AuthPayload
  Log : LogPayload
  Mail : MailPayload
  deriving DecidableEq, Repr

/-- The Go struct `RPCPayload`. -/
structure RPCPayload where
  Name : String
  Data : String
  deriving DecidableEq, Repr

/-- The generated struct `logs.Log` (only the two fields the handler sets). -/
structure Log where
  Name : String
  Data : String
  deriving DecidableEq, Repr

/-- The generated struct `logs.LogRequest`. -/
structure LogRequest where
  LogEntry : Log
  deriving DecidableEq, Repr

/-- Modelled from the spec: the struct `jsonResponse` is declared outside
`handlers.go`; the spec gives the response envelope as
`{error: bool, message: string, data: optional opaque value}`.  The opaque
value is kept as its text, `none` being Go's `nil`. -/
structure jsonResponse where
  Error : Bool
  Message : String
  Data : Option String
  deriving DecidableEq, Repr

/-- The zero value that `var payload jsonResponse` declares. -/
def jsonResponse.zero : jsonResponse := ⟨false, "", none⟩

/-- The constant `http.StatusOK`. -/
def StatusOK : Nat := 200

/-- The constant `http.StatusAccepted`. -/
def StatusAccepted : Nat := 202

/-- The constant `http.StatusUnauthorized`. -/
def StatusUnauthorized : Nat := 401

/-- The constant `time.Second`, in nanoseconds. -/
def timeSecond : Nat := 1000000000

/-- An outgoing `*http.Request`: what `http.NewRequest` fills in, and the
header map as an association list. -/
structure HttpRequest where
  Method : String
  URL : String
  Body : String
  Header : List (String × String)
  deriving DecidableEq, Repr

/-- The Go call `request.Header.Set(key, value)`: the values stored under
`key` are replaced by the single `value`. -/
def HttpRequest.headerSet (request : HttpRequest) (key value : String) : HttpRequest :=
  { request with Header := (key, value) :: request.Header.filter (fun kv => kv.1 ≠ key) }

/-- The part of a `*http.Response` the handlers read. -/
structure HttpResponse where
  StatusCode : Nat
  Body : String
  deriving DecidableEq, Repr

/-- The values the handlers pass to `json.MarshalIndent`. -/
inductive Marshalable where
  | auth (a : AuthPayload)
  | log (l : LogPayload)
  | mail (m : MailPayload)
  deriving DecidableEq, Repr

/-- Everything outside `handlers.go` that a handler's control flow depends
on: the library calls it makes and the answers of the downstream services. -/
structure World where
  /-- The helper `app.readJson(w, r, &requestPayload)` on the inbound request
  `r`: the decoded payload and the error. -/
  readJson : String → RequestPayload × GoError
  /-- The library call `json.MarshalIndent(v, pre, indent)`; the handlers
  discard its error. -/
  marshalIndent : Marshalable → String → String → String
  /-- The error of `http.NewRequest(method, url, body)`. -/
  newRequestErr : String → String → GoError
  /-- The library call `client.Do(request)`. -/
  clientDo : HttpRequest → HttpResponse × GoError
  /-- The call `json.NewDecoder(response.Body).Decode(&jsonFromService)`: the
  decoded envelope and the error. -/
  decode : String → jsonResponse × GoError
  /-- The error of `rpc.Dial(network, address)`. -/
  rpcDial : String → String → GoError
  /-- The call `client.Call(serviceMethod, args, &result)`: the result string
  and the error. -/
  rpcCall : String → RPCPayload → String × GoError
  /-- The error of `event.NewEventEmitter(app.Rabbit)`. -/
  newEventEmitter : GoError
  /-- The error of `emitter.Push(event, severity)`. -/
  emitterPush : String → String → GoError
  /-- The error of `grpc.Dial(target, ...)`. -/
  grpcDial : String → GoError
  /-- The error of `c.WriteLog(ctx, request)` under a deadline. -/
  writeLog : Nat → LogRequest → GoError

/-- One effect of a handler. -/
inductive Event where
  /-- The call `client.Do(request)`. -/
  | clientDo (request : HttpRequest)
  /-- The deferred `response.Body.Close()`. -/
  | bodyClose
  /-- The call `fmt.Println(jsonData)`. -/
  | printlnBytes (bytes : String)
  /-- The call `fmt.Println(response.StatusCode)`. -/
  | printlnStatus (code : Nat)
  /-- The call `rpc.Dial(network, address)`. -/
  | rpcDial (network address : String)
  /-- The call `client.Call(serviceMethod, args, &result)`. -/
  | rpcCall (serviceMethod : String) (args : RPCPayload)
  /-- The call `event.NewEventEmitter(app.Rabbit)`. -/
  | newEventEmitter
  /-- The call `emitter.Push(event, severity)`. -/
  | emitterPush (event severity : String)
  /-- The call `grpc.Dial(target, ...)`, made with `grpc.WithBlock()`. -/
  | grpcDial (target : String)
  /-- The deferred `conn.Close()`. -/
  | grpcConnClose
  /-- The deferred `cancel()`. -/
  | ctxCancel
  /-- The call `c.WriteLog(ctx, request)`, `ctx` carrying the timeout. -/
  | writeLog (timeout : Nat) (request : LogRequest)
  /-- The call `app.errorJson(w, err, status...)`. -/
  | errorJson (err : GoError) (status : List Nat)
  /-- The call `app.writeJson(w, status, data)`. -/
  | writeJson (status : Nat) (data : jsonResponse)
  deriving DecidableEq, Repr

/-! ## The handlers -/

/-- The handler `Broker`. -/
def Broker : List Event :=
  let payload : jsonResponse := { Error := false, Message := "Hit the broker", Data := none }
  [.writeJson StatusOK payload]

/-- The adapter `logItem`. -/
def logItem (W : World) (entry : LogPayload) : List Event :=
  let jsonData := W.marshalIndent (.log entry) "" "\t"
  let logServiceURL := "http://logger-service/log"
  let err := W.newRequestErr "POST" logServiceURL
  if err ≠ none then
    [.errorJson err []]
  else
    let request : HttpRequest := ⟨"POST", logServiceURL, jsonData, []⟩
    let request := request.headerSet "Content-Type" "application/json"
    let result := W.clientDo request
    let response := result.1
    let err := result.2
    if err ≠ none then
      [.clientDo request, .errorJson err []]
    else if response.StatusCode ≠ StatusAccepted then
      [.clientDo request, .errorJson err [], .bodyClose]
    else
      let payload := jsonResponse.zero
      let payload := { payload with Error := false }
      let payload := { payload with Message := "logged" }
      [.clientDo request, .writeJson StatusAccepted payload, .bodyClose]

/-- The adapter `authenticate`. -/
def authenticate (W : World) (a : AuthPayload) : List Event :=
  let jsonData := W.marshalIndent (.auth a) "" "\t"
  let err := W.newRequestErr "POST" "http://authentication-service/authenticate"
  if err ≠ none then
    [.errorJson err []]
  else
    let request : HttpRequest :=
      ⟨"POST", "http://authentication-service/authenticate", jsonData, []⟩
    let result := W.clientDo request
    let response := result.1
    let err := result.2
    if err ≠ none then
      [.clientDo request, .errorJson err []]
    else if response.StatusCode = StatusUnauthorized then
      [.clientDo request, .errorJson (errorsNew "invalid credentials") [], .bodyClose]
    else if response.StatusCode ≠ StatusAccepted then
      [.clientDo request, .printlnBytes jsonData, .printlnStatus response.StatusCode,
        .errorJson (errorsNew "error calling auth service") [], .bodyClose]
    else
      let decoded := W.decode response.Body
      let jsonFromService := decoded.1
      let err := decoded.2
      if err ≠ none then
        [.clientDo request, .printlnBytes jsonData, .printlnStatus response.StatusCode,
          .errorJson err [], .bodyClose]
      else if jsonFromService.Error then
        [.clientDo request, .printlnBytes jsonData, .printlnStatus response.StatusCode,
          .errorJson err [StatusUnauthorized], .bodyClose]
      else
        let payload := jsonResponse.zero
        let payload := { payload with Message := "Authenticated" }
        let payload := { payload with Data := jsonFromService.Data }
        [.clientDo request, .printlnBytes jsonData, .printlnStatus response.StatusCode,
          .writeJson StatusAccepted payload, .bodyClose]

/-- The adapter `sendMail`. -/
def sendMail (W : World) (msg : MailPayload) : List Event :=
  let jsonData := W.marshalIndent (.mail msg) "" "\t"
  let mailServiceURL := "http://mailer-service/send"
  let err := W.newRequestErr "POST" mailServiceURL
  if err ≠ none then
    [.errorJson err []]
  else
    let request : HttpRequest := ⟨"POST", mailServiceURL, jsonData, []⟩
    let request := request.headerSet "Content-Type" "application/json"
    let result := W.clientDo request
    let response := result.1
    let err := result.2
    if err ≠ none then
      [.clientDo request, .errorJson err []]
    else if response.StatusCode ≠ StatusAccepted then
      [.clientDo request, .errorJson (errorsNew "error calling mail service") [], .bodyClose]
    else
      let payload := jsonResponse.zero
      let payload := { payload with Error := false }
      let payload := { payload with Message := "Message sent to " ++ msg.To }
      [.clientDo request, .writeJson StatusAccepted payload, .bodyClose]

/-- The method `pushToQueue`: its effects and the error it returns. -/
def pushToQueue (W : World) (name msg : String) : List Event × GoError :=
  let err := W.newEventEmitter
  if err ≠ none then
    ([.newEventEmitter], err)
  else
    let payload : LogPayload := { Name := name, Data := msg }
    let j := W.marshalIndent (.log payload) "" "\t"
    let err := W.emitterPush j "log.INFO"
    if err ≠ none then
      ([.newEventEmitter, .emitterPush j "log.INFO"], err)
    else
      ([.newEventEmitter, .emitterPush j "log.INFO"], none)

/-- The handler `logEventViaRabbit`. -/
def logEventViaRabbit (W : World) (l : LogPayload) : List Event :=
  let pushed := pushToQueue W l.Name l.Data
  let err := pushed.2
  if err ≠ none then
    pushed.1 ++ [.errorJson err []]
  else
    let payload := jsonResponse.zero
    let payload := { payload with Error := false }
    let payload := { payload with Message := "logged via RabbitMQ" }
    pushed.1 ++ [.writeJson StatusAccepted payload]

/-- The adapter `logItemViaRPC`. -/
def logItemViaRPC (W : World) (l : LogPayload) : List Event :=
  let err := W.rpcDial "tcp" "logger-service:5001"
  if err ≠ none then
    [.rpcDial "tcp" "logger-service:5001", .errorJson err []]
  else
    let rpcPayload : RPCPayload := { Name := l.Name, Data := l.Data }
    let called := W.rpcCall "RPCServer.LogInfo" rpcPayload
    let result := called.1
    let err := called.2
    if err ≠ none then
      [.rpcDial "tcp" "logger-service:5001", .rpcCall "RPCServer.LogInfo" rpcPayload,
        .errorJson err []]
    else
      let payload := jsonResponse.zero
      let payload := { payload with Error := false }
      let payload := { payload with Message := result }
      [.rpcDial "tcp" "logger-service:5001", .rpcCall "RPCServer.LogInfo" rpcPayload,
        .writeJson StatusAccepted payload]

/-- The handler `HandleSubmission` on the inbound request `r`. -/
def HandleSubmission (W : World) (r : String) : List Event :=
  let read := W.readJson r
  let requestPayload := read.1
  let err := read.2
  if err ≠ none then
    [.errorJson err []]
  else if requestPayload.Action = "auth" then
    authenticate W requestPayload.Auth
  else if requestPayload.Action = "log" then
    logItemViaRPC W requestPayload.Log
  else if requestPayload.Action = "mail" then
    sendMail W requestPayload.Mail
  else
    [.errorJson (errorsNew "unknown action") []]

/-- The handler `LogViaGRPC` on the inbound request `r`. -/
def LogViaGRPC (W : World) (r : String) : List Event :=
  let read := W.readJson r
  let requestPayload := read.1
  let err := read.2
  if err ≠ none then
    [.errorJson err []]
  else
    let err := W.grpcDial "logger-service:50001"
    if err ≠ none then
      [.grpcDial "logger-service:50001", .errorJson err []]
    else
      let request : LogRequest :=
        { LogEntry := { Name := requestPayload.Log.Name, Data := requestPayload.Log.Data } }
      let err := W.writeLog timeSecond request
      if err ≠ none then
        [.grpcDial "logger-service:50001", .writeLog timeSecond request, .errorJson err [],
          .ctxCancel, .grpcConnClose]
      else
        let payload := jsonResponse.zero
        let payload := { payload with Error := false }
        let payload := { payload with Message := "logged" }
        [.grpcDial "logger-service:50001", .writeLog timeSecond request,
          .writeJson StatusAccepted payload, .ctxCancel, .grpcConnClose]

/-! ## Reading a handler's effects -/

/-- A downstream call proper: an HTTP round trip, an RPC call, a gRPC call or
a queue publish. -/
def Event.isDownstreamCall : Event → Bool
  | .clientDo _ => true
  | .rpcCall _ _ => true
  | .emitterPush _ _ => true
  | .writeLog _ _ => true
  | _ => false

/-- Any contact with a downstream service: a downstream call, or the set-up of
a connection or channel to one. -/
def Event.isDownstream : Event → Bool
  | .clientDo _ => true
  | .rpcDial _ _ => true
  | .rpcCall _ _ => true
  | .newEventEmitter => true
  | .emitterPush _ _ => true
  | .grpcDial _ => true
  | .writeLog _ _ => true
  | _ => false

/-- A call to one of the two helpers that write the response envelope. -/
def Event.isResponse : Event → Bool
  | .errorJson _ _ => true
  | .writeJson _ _ => true
  | _ => false

/-- The downstream calls of a run, in order. -/
def downstreamCalls (trace : List Event) : List Event :=
  trace.filter Event.isDownstreamCall

/-- The calls of a run to the envelope writers, in order. -/
def responses (trace : List Event) : List Event :=
  trace.filter Event.isResponse

/-- What the caller receives: a status code and a response envelope. -/
structure Written where
  status : Nat
  envelope : jsonResponse
  deriving DecidableEq, Repr

/-- Modelled from the spec: the helper `writeJson` is defined outside
`handlers.go`; the spec has the codec build the outbound shape
`{error, message, data}` under the HTTP status the path sets. -/
def writeJson (status : Nat) (data : jsonResponse) : Written :=
  ⟨status, data⟩

/-- Modelled from the spec: the helper `errorJson` is defined outside
`handlers.go`; the spec has every failure surface as
`{error:true, message:<description>}` under the status the failure path sets,
and under a generic failure status (`generic`, which the spec does not number)
when the path sets none.  A `nil` error has no description: nothing
well-formed is written (`none`). -/
def errorJson (generic : Nat) (err : GoError) (status : List Nat) : Option Written :=
  match err with
  | none => none
  | some description =>
    some (writeJson (status.headD generic) { Error := true, Message := description, Data := none })

/-- What one call to an envelope writer sends to the caller. -/
def Event.render (generic : Nat) : Event → Option Written
  | .errorJson err status => BrokerService.errorJson generic err status
  | .writeJson status data => some (BrokerService.writeJson status data)
  | _ => none

/-- What a run sends to the caller: one entry per call to an envelope writer,
`none` where the writer was handed a `nil` error. -/
def emitted (generic : Nat) (trace : List Event) : List (Option Written) :=
  (responses trace).map (Event.render generic)

/-- A downstream call that, in world `W`, completed without error and returned
its success signal: status 202 for an HTTP round trip, a `nil` error for an
RPC call, a gRPC call and a queue publish. -/
def succeeded (W : World) : Event → Bool
  | .clientDo request =>
    decide ((W.clientDo request).2 = none ∧ (W.clientDo request).1.StatusCode = StatusAccepted)
  | .rpcCall serviceMethod args => decide ((W.rpcCall serviceMethod args).2 = none)
  | .emitterPush event severity => decide (W.emitterPush event severity = none)
  | .writeLog timeout request => decide (W.writeLog timeout request = none)
  | _ => false

/-! ## Sample inputs -/

/-- A stand-in for `json.MarshalIndent` on the sample worlds. -/
def sampleMarshal : Marshalable → String → String → String
  | .auth a, _, _ => "auth " ++ a.Email ++ " " ++ a.Password
  | .log l, _, _ => "log " ++ l.Name ++ " " ++ l.Data
  | .mail m, _, _ => "mail " ++ m.From ++ " " ++ m.To ++ " " ++ m.Subject ++ " " ++ m.Message

/-- A sample request payload with the given action. -/
def sampleRequest (action : String) : RequestPayload :=
  { Action := action
    Auth := ⟨"admin@example.com", "verysecret"⟩
    Log := ⟨"test", "x"⟩
    Mail := ⟨"me@example.com", "you@example.com", "Hello", "Hi there"⟩ }

/-- A sample world: the inbound body decodes to `sampleRequest action`, every
connection succeeds, every HTTP service answers `status` with a body that
decodes to `reply`, the RPC server answers "Processed", and the bus and the
gRPC server accept. -/
def sampleWorld (action : String) (status : Nat) (reply : jsonResponse) : World :=
  { readJson := fun _ => (sampleRequest action, none)
    marshalIndent := sampleMarshal
    newRequestErr := fun _ _ => none
    clientDo := fun _ => (⟨status, "body"⟩, none)
    decode := fun _ => (reply, none)
    rpcDial := fun _ _ => none
    rpcCall := fun _ _ => ("Processed", none)
    newEventEmitter := none
    emitterPush := fun _ _ => none
    grpcDial := fun _ => none
    writeLog := fun _ _ => none }

/-- The request `authenticate` hands to `client.Do` for the payload `a`. -/
def authenticateRequest (W : World) (a : AuthPayload) : HttpRequest :=
  ⟨"POST", "http://authentication-service/authenticate", W.marshalIndent (.auth a) "" "\t", []⟩

/-- An HTTP world for `authenticate`: the request is built, the round trip
completes, and the authentication service answers `status` with a body that
decodes to `reply`. -/
def authWorld (status : Nat) (reply : jsonResponse) : World :=
  sampleWorld "auth" status reply

/-- The sample credentials. -/
def sampleAuth : AuthPayload := ⟨"admin@example.com", "verysecret"⟩

/-- The event is a call to an envelope writer that sends the caller an
envelope with error=false. -/
def Event.sendsSuccess (e : Event) : Prop :=
  ∃ generic written, e.render generic = some written ∧ written.envelope.Error = false

/-- Every envelope with error=false that the run sends comes after a
downstream call of the same run that succeeded in world `W`. -/
def successBacked (W : World) (trace : List Event) : Prop :=
  ∀ before e after, trace = before ++ e :: after → e.sendsSuccess →
    ∃ call ∈ before, succeeded W call = true

/-- A pass over a run that checks `successBacked`: `seen` tells whether a
succeeded downstream call lies behind. -/
def backedFrom (W : World) : Bool → List Event → Bool
  | _, [] => true
  | seen, e :: rest =>
    (match e with
      | .writeJson _ data => data.Error || seen
      | _ => true) && backedFrom W (seen || succeeded W e) rest

/-! ## Shared lemmas on the adapters -/

theorem authenticate_contacts (W : World) (a : AuthPayload) :
    ∀ e ∈ authenticate W a, e.isDownstream = true →
      e = .clientDo ⟨"POST", "http://authentication-service/authenticate",
        W.marshalIndent (.auth a) "" "\t", []⟩ := by
  unfold authenticate
  simp only []
  split_ifs <;> simp [Event.isDownstream]

theorem sendMail_contacts (W : World) (msg : MailPayload) :
    ∀ e ∈ sendMail W msg, e.isDownstream = true →
      e = .clientDo ⟨"POST", "http://mailer-service/send",
        W.marshalIndent (.mail msg) "" "\t", [("Content-Type", "application/json")]⟩ := by
  unfold sendMail
  simp only []
  split_ifs <;> simp [Event.isDownstream, HttpRequest.headerSet]

theorem logItem_contacts (W : World) (entry : LogPayload) :
    ∀ e ∈ logItem W entry, e.isDownstream = true →
      e = .clientDo ⟨"POST", "http://logger-service/log",
        W.marshalIndent (.log entry) "" "\t", [("Content-Type", "application/json")]⟩ := by
  unfold logItem
  simp only []
  split_ifs <;> simp [Event.isDownstream, HttpRequest.headerSet]

theorem logItemViaRPC_contacts (W : World) (l : LogPayload) :
    ∀ e ∈ logItemViaRPC W l, e.isDownstream = true →
      e = .rpcDial "tcp" "logger-service:5001" ∨
      e = .rpcCall "RPCServer.LogInfo" ⟨l.Name, l.Data⟩ := by
  unfold logItemViaRPC
  simp only []
  split_ifs <;> simp [Event.isDownstream]

theorem authenticate_calls_le (W : World) (a : AuthPayload) :
    (downstreamCalls (authenticate W a)).length ≤ 1 := by
  unfold authenticate downstreamCalls
  simp only []
  split_ifs <;> simp [Event.isDownstreamCall]

theorem sendMail_calls_le (W : World) (msg : MailPayload) :
    (downstreamCalls (sendMail W msg)).length ≤ 1 := by
  unfold sendMail downstreamCalls
  simp only []
  split_ifs <;> simp [Event.isDownstreamCall]

theorem logItemViaRPC_calls_le (W : World) (l : LogPayload) :
    (downstreamCalls (logItemViaRPC W l)).length ≤ 1 := by
  unfold logItemViaRPC downstreamCalls
  simp only []
  split_ifs <;> simp [Event.isDownstreamCall]

/-! ## Dispatch -/

/-- C1: on a decoded request whose action is none of "auth", "log" and "mail"
(the empty string included), `HandleSubmission` makes the single call
`errorJson(w, errors.New("unknown action"))`, so the caller receives the
envelope `{error:true, message:"unknown action"}`, and the run contacts no
downstream service: no HTTP request, no RPC dial, no queue publish. -/
theorem HandleSubmission_unknown_action (W : World) (r : String) (generic : Nat)
    (hread : (W.readJson r).2 = none)
    (hauth : (W.readJson r).1.Action ≠ "auth")
    (hlog : (W.readJson r).1.Action ≠ "log")
    (hmail : (W.readJson r).1.Action ≠ "mail") :
    HandleSubmission W r = [.errorJson (errorsNew "unknown action") []] ∧
    emitted generic (HandleSubmission W r) =
      [some ⟨generic, { Error := true, Message := "unknown action", Data := none }⟩] ∧
    (HandleSubmission W r).filter Event.isDownstream = [] := by
  have h : HandleSubmission W r = [.errorJson (errorsNew "unknown action") []] := by
    simp [HandleSubmission, hread, hauth, hlog, hmail]
  rw [h]
  simp [emitted, responses, Event.isResponse, Event.render, errorJson, writeJson, errorsNew,
    Event.isDownstream]

/-- C1 at concrete inputs: the empty action and the action "delete". -/
theorem HandleSubmission_unknown_action_witness :
    emitted 400 (HandleSubmission (sampleWorld "" 202 ⟨false, "", none⟩) "r") =
      [some ⟨400, { Error := true, Message := "unknown action", Data := none }⟩] ∧
    (HandleSubmission (sampleWorld "delete" 202 ⟨false, "", none⟩) "r").filter
      Event.isDownstream = [] :=
  ⟨(HandleSubmission_unknown_action (sampleWorld "" 202 ⟨false, "", none⟩) "r" 400
      rfl (by decide) (by decide) (by decide)).2.1,
   (HandleSubmission_unknown_action (sampleWorld "delete" 202 ⟨false, "", none⟩) "r" 400
      rfl (by decide) (by decide) (by decide)).2.2⟩

/-- C2: on a decoded request, the action "auth" runs `authenticate` on the
request's `Auth` payload and nothing else, "log" runs `logItemViaRPC` on the
`Log` payload and nothing else, "mail" runs `sendMail` on the `Mail` payload
and nothing else: the run is that adapter's run, every downstream contact in
it is that adapter's own (the POST to its URL carrying the payload, or the
dial and call of the RPC server), and every run attempts at most one
downstream call. -/
theorem HandleSubmission_dispatch (W : World) (r : String)
    (hread : (W.readJson r).2 = none) :
    ((W.readJson r).1.Action = "auth" →
      HandleSubmission W r = authenticate W (W.readJson r).1.Auth ∧
      ∀ e ∈ HandleSubmission W r, e.isDownstream = true →
        e = .clientDo ⟨"POST", "http://authentication-service/authenticate",
          W.marshalIndent (.auth (W.readJson r).1.Auth) "" "\t", []⟩) ∧
    ((W.readJson r).1.Action = "log" →
      HandleSubmission W r = logItemViaRPC W (W.readJson r).1.Log ∧
      ∀ e ∈ HandleSubmission W r, e.isDownstream = true →
        e = .rpcDial "tcp" "logger-service:5001" ∨
        e = .rpcCall "RPCServer.LogInfo"
          ⟨(W.readJson r).1.Log.Name, (W.readJson r).1.Log.Data⟩) ∧
    ((W.readJson r).1.Action = "mail" →
      HandleSubmission W r = sendMail W (W.readJson r).1.Mail ∧
      ∀ e ∈ HandleSubmission W r, e.isDownstream = true →
        e = .clientDo ⟨"POST", "http://mailer-service/send",
          W.marshalIndent (.mail (W.readJson r).1.Mail) "" "\t",
          [("Content-Type", "application/json")]⟩) ∧
    (downstreamCalls (HandleSubmission W r)).length ≤ 1 := by
  refine ⟨?_, ?_, ?_, ?_⟩
  · intro h
    have hrun : HandleSubmission W r = authenticate W (W.readJson r).1.Auth := by
      simp [HandleSubmission, hread, h]
    rw [hrun]
    exact ⟨rfl, authenticate_contacts W _⟩
  · intro h
    have hrun : HandleSubmission W r = logItemViaRPC W (W.readJson r).1.Log := by
      simp [HandleSubmission, hread, h]
    rw [hrun]
    exact ⟨rfl, logItemViaRPC_contacts W _⟩
  · intro h
    have hrun : HandleSubmission W r = sendMail W (W.readJson r).1.Mail := by
      simp [HandleSubmission, hread, h]
    rw [hrun]
    exact ⟨rfl, sendMail_contacts W _⟩
  · unfold HandleSubmission
    simp only []
    split_ifs
    · simp [downstreamCalls, Event.isDownstreamCall]
    · exact authenticate_calls_le W _
    · exact logItemViaRPC_calls_le W _
    · exact sendMail_calls_le W _
    · simp [downstreamCalls, Event.isDownstreamCall]

/-- C2 at concrete inputs: one sample request for each recognized action. -/
theorem HandleSubmission_dispatch_witness :
    HandleSubmission (sampleWorld "auth" 202 ⟨false, "", none⟩) "r" =
      authenticate (sampleWorld "auth" 202 ⟨false, "", none⟩)
        ⟨"admin@example.com", "verysecret"⟩ ∧
    HandleSubmission (sampleWorld "log" 202 ⟨false, "", none⟩) "r" =
      logItemViaRPC (sampleWorld "log" 202 ⟨false, "", none⟩) ⟨"test", "x"⟩ ∧
    HandleSubmission (sampleWorld "mail" 202 ⟨false, "", none⟩) "r" =
      sendMail (sampleWorld "mail" 202 ⟨false, "", none⟩)
        ⟨"me@example.com", "you@example.com", "Hello", "Hi there"⟩ ∧
    (downstreamCalls (HandleSubmission (sampleWorld "mail" 202 ⟨false, "", none⟩) "r")).length
      ≤ 1 :=
  ⟨((HandleSubmission_dispatch (sampleWorld "auth" 202 ⟨false, "", none⟩) "r" rfl).1 rfl).1,
   ((HandleSubmission_dispatch (sampleWorld "log" 202 ⟨false, "", none⟩) "r" rfl).2.1 rfl).1,
   ((HandleSubmission_dispatch (sampleWorld "mail" 202 ⟨false, "", none⟩) "r" rfl).2.2.1 rfl).1,
   (HandleSubmission_dispatch (sampleWorld "mail" 202 ⟨false, "", none⟩) "r" rfl).2.2.2⟩

/-! ## The authentication adapter -/

/-- The run of `authenticate` once the request is built and the round trip
completes with a status other than 401 and 202. -/
theorem authenticate_bad_status (W : World) (a : AuthPayload)
    (hnew : W.newRequestErr "POST" "http://authentication-service/authenticate" = none)
    (hdo : (W.clientDo (authenticateRequest W a)).2 = none)
    (h401 : (W.clientDo (authenticateRequest W a)).1.StatusCode ≠ StatusUnauthorized)
    (h202 : (W.clientDo (authenticateRequest W a)).1.StatusCode ≠ StatusAccepted) :
    responses (authenticate W a) = [.errorJson (some "error calling auth service") []] := by
  unfold authenticateRequest at hdo h401 h202
  simp [authenticate, hnew, hdo, h401, h202, responses, Event.isResponse, errorsNew]

/-- C3, as stated, fails: the authentication service answers 202 with a
decodable envelope `{error:true, message:"rejected", data:"token"}`, and
`authenticate` writes no success envelope at all; its only response is the
call `errorJson(w, err, http.StatusUnauthorized)`. -/
theorem authenticate_relay_counterexample :
    ((authWorld 202 ⟨true, "rejected", some "token"⟩).clientDo
      (authenticateRequest (authWorld 202 ⟨true, "rejected", some "token"⟩) sampleAuth)
      = (⟨StatusAccepted, "body"⟩, none)) ∧
    ((authWorld 202 ⟨true, "rejected", some "token"⟩).decode "body"
      = (⟨true, "rejected", some "token"⟩, none)) ∧
    ¬ (∃ status data, Event.writeJson status data ∈
        authenticate (authWorld 202 ⟨true, "rejected", some "token"⟩) sampleAuth ∧
        data.Error = false ∧ data.Data = some "token") ∧
    responses (authenticate (authWorld 202 ⟨true, "rejected", some "token"⟩) sampleAuth) =
      [.errorJson none [StatusUnauthorized]] := by
  refine ⟨rfl, rfl, ?_, by decide⟩
  rintro ⟨status, data, hmem, -, -⟩
  simp [authenticate, authWorld, sampleWorld, StatusAccepted, StatusUnauthorized] at hmem

/-- C3, amended: when the request is built, the round trip completes, the
authentication service answers 202 and its body decodes to an envelope whose
error flag is false, `authenticate` writes exactly one envelope, under status
202, with error=false, the message "Authenticated" and the downstream
envelope's data unchanged. -/
theorem authenticate_relays_data (W : World) (a : AuthPayload) (generic : Nat)
    (hnew : W.newRequestErr "POST" "http://authentication-service/authenticate" = none)
    (hdo : (W.clientDo (authenticateRequest W a)).2 = none)
    (hstatus : (W.clientDo (authenticateRequest W a)).1.StatusCode = StatusAccepted)
    (hdecode : (W.decode (W.clientDo (authenticateRequest W a)).1.Body).2 = none)
    (hflag : (W.decode (W.clientDo (authenticateRequest W a)).1.Body).1.Error = false) :
    responses (authenticate W a) =
      [.writeJson StatusAccepted
        { Error := false, Message := "Authenticated",
          Data := (W.decode (W.clientDo (authenticateRequest W a)).1.Body).1.Data }] ∧
    emitted generic (authenticate W a) =
      [some ⟨StatusAccepted,
        { Error := false, Message := "Authenticated",
          Data := (W.decode (W.clientDo (authenticateRequest W a)).1.Body).1.Data }⟩] := by
  simp only [authenticateRequest] at hdo hstatus hdecode hflag ⊢
  have hne : StatusAccepted ≠ StatusUnauthorized := by decide
  simp [authenticate, hnew, hdo, hstatus, hdecode, hflag, hne, emitted, responses,
    Event.isResponse, Event.render, writeJson, jsonResponse.zero]

/-- C3, amended, at a concrete input: the service answers 202 with
`{error:false, message:"ok", data:"token"}`. -/
theorem authenticate_relays_data_witness :
    emitted 400 (authenticate (authWorld 202 ⟨false, "ok", some "token"⟩) sampleAuth) =
      [some ⟨202, { Error := false, Message := "Authenticated", Data := some "token" }⟩] :=
  (authenticate_relays_data (authWorld 202 ⟨false, "ok", some "token"⟩) sampleAuth 400
    rfl rfl rfl rfl rfl).2

/-- C4, as stated, fails: the authentication service answers 401 and, whatever
generic failure status (other than 401) the envelope writer uses, the status
the caller receives is not 401. -/
theorem authenticate_unauthorized_status_counterexample :
    ((authWorld 401 ⟨false, "", none⟩).clientDo
      (authenticateRequest (authWorld 401 ⟨false, "", none⟩) sampleAuth)
      = (⟨StatusUnauthorized, "body"⟩, none)) ∧
    ¬ (∃ generic, generic ≠ StatusUnauthorized ∧
        (emitted generic (authenticate (authWorld 401 ⟨false, "", none⟩) sampleAuth)).map
          (Option.map Written.status) = [some StatusUnauthorized]) := by
  refine ⟨rfl, ?_⟩
  rintro ⟨generic, hne, h⟩
  simp [authenticate, authWorld, sampleWorld, StatusAccepted, StatusUnauthorized, emitted,
    responses, Event.isResponse, Event.render, errorJson, writeJson, errorsNew] at h
  exact hne h

/-- C4, amended: when the request is built and the round trip completes with
status 401, `authenticate` writes exactly one envelope, with error=true and
the message "invalid credentials", through `errorJson` without a status
argument, so under the generic failure status; every other status except 202
gives the message "error calling auth service" under the same status.  The
unauthorized answer is told apart by the message, not by the status. -/
theorem authenticate_unauthorized_message (W : World) (a : AuthPayload) (generic : Nat)
    (hnew : W.newRequestErr "POST" "http://authentication-service/authenticate" = none)
    (hdo : (W.clientDo (authenticateRequest W a)).2 = none) :
    ((W.clientDo (authenticateRequest W a)).1.StatusCode = StatusUnauthorized →
      responses (authenticate W a) = [.errorJson (some "invalid credentials") []] ∧
      emitted generic (authenticate W a) =
        [some ⟨generic, { Error := true, Message := "invalid credentials", Data := none }⟩]) ∧
    ((W.clientDo (authenticateRequest W a)).1.StatusCode ≠ StatusUnauthorized →
      (W.clientDo (authenticateRequest W a)).1.StatusCode ≠ StatusAccepted →
      responses (authenticate W a) = [.errorJson (some "error calling auth service") []] ∧
      emitted generic (authenticate W a) =
        [some ⟨generic,
          { Error := true, Message := "error calling auth service", Data := none }⟩]) := by
  constructor
  · intro h401
    unfold authenticateRequest at hdo h401
    simp [authenticate, hnew, hdo, h401, emitted, responses, Event.isResponse, Event.render,
      errorJson, writeJson, errorsNew]
  · intro h401 h202
    have hrun := authenticate_bad_status W a hnew hdo h401 h202
    simp [emitted, hrun, Event.render, errorJson, writeJson]

/-- C4, amended, at concrete inputs: the service answers 401, and 500. -/
theorem authenticate_unauthorized_message_witness :
    emitted 400 (authenticate (authWorld 401 ⟨false, "", none⟩) sampleAuth) =
      [some ⟨400, { Error := true, Message := "invalid credentials", Data := none }⟩] ∧
    emitted 400 (authenticate (authWorld 500 ⟨false, "", none⟩) sampleAuth) =
      [some ⟨400, { Error := true, Message := "error calling auth service", Data := none }⟩] :=
  ⟨((authenticate_unauthorized_message (authWorld 401 ⟨false, "", none⟩) sampleAuth 400
      rfl rfl).1 rfl).2,
   ((authenticate_unauthorized_message (authWorld 500 ⟨false, "", none⟩) sampleAuth 400
      rfl rfl).2 (by decide) (by decide)).2⟩

/-! ## Runs in which an adapter hands `errorJson` a nil error -/

/-- C5 on the code: the logger service answers 500 to `logItem`; the round
trip itself completed, so `err` is `nil`, and `logItem` calls
`errorJson(w, err)` with that `nil` error: no envelope with a cause is
written.  On the same answer `sendMail` and `authenticate` pass a fresh
non-nil error. -/
theorem logItem_bad_status_nil_error :
    responses (logItem (sampleWorld "log" 500 ⟨false, "", none⟩) ⟨"test", "x"⟩) =
      [.errorJson none []] ∧
    emitted 400 (logItem (sampleWorld "log" 500 ⟨false, "", none⟩) ⟨"test", "x"⟩) = [none] ∧
    responses (sendMail (sampleWorld "mail" 500 ⟨false, "", none⟩)
        ⟨"me@example.com", "you@example.com", "Hello", "Hi there"⟩) =
      [.errorJson (some "error calling mail service") []] ∧
    responses (authenticate (authWorld 500 ⟨false, "", none⟩) sampleAuth) =
      [.errorJson (some "error calling auth service") []] := by
  decide

/-- C6 on the code: the action is "auth" and the authentication service
answers 202 with a decodable envelope whose error flag is true; decoding
succeeded, so `err` is `nil`, and the run's only response is the call
`errorJson(w, err, http.StatusUnauthorized)` with that `nil` error. -/
theorem HandleSubmission_auth_rejected_nil_error :
    responses (HandleSubmission (sampleWorld "auth" 202 ⟨true, "rejected", none⟩) "r") =
      [.errorJson none [StatusUnauthorized]] ∧
    emitted 400 (HandleSubmission (sampleWorld "auth" 202 ⟨true, "rejected", none⟩) "r") =
      [none] := by
  decide

/-- C10 on the code: the request `authenticate` hands to `client.Do` is a POST
to its URL with the serialized payload as body and an empty header map, while
the requests of `logItem` and `sendMail` carry
`Content-Type: application/json`. -/
theorem authenticate_request_without_content_type :
    downstreamCalls (authenticate (authWorld 202 ⟨false, "ok", none⟩) sampleAuth) =
      [.clientDo ⟨"POST", "http://authentication-service/authenticate",
        sampleMarshal (.auth sampleAuth) "" "\t", []⟩] ∧
    downstreamCalls (logItem (sampleWorld "log" 202 ⟨false, "", none⟩) ⟨"test", "x"⟩) =
      [.clientDo ⟨"POST", "http://logger-service/log",
        sampleMarshal (.log ⟨"test", "x"⟩) "" "\t", [("Content-Type", "application/json")]⟩] ∧
    downstreamCalls (sendMail (sampleWorld "mail" 202 ⟨false, "", none⟩)
        ⟨"me@example.com", "you@example.com", "Hello", "Hi there"⟩) =
      [.clientDo ⟨"POST", "http://mailer-service/send",
        sampleMarshal (.mail ⟨"me@example.com", "you@example.com", "Hello", "Hi there"⟩) "" "\t",
        [("Content-Type", "application/json")]⟩] := by
  decide

/-! ## Success envelopes -/

theorem sendsSuccess_writeJson (e : Event) (h : e.sendsSuccess) :
    ∃ status data, e = .writeJson status data ∧ data.Error = false := by
  obtain ⟨generic, written, hrender, herr⟩ := h
  cases e with
  | writeJson status data =>
    refine ⟨status, data, rfl, ?_⟩
    simp [Event.render, writeJson] at hrender
    subst hrender
    exact herr
  | errorJson err status =>
    cases err with
    | none => simp [Event.render, errorJson] at hrender
    | some description =>
      simp [Event.render, errorJson, writeJson] at hrender
      subst hrender
      simp at herr
  | _ => simp [Event.render] at hrender

theorem backedFrom_sound (W : World) (trace : List Event) :
    ∀ seen, backedFrom W seen trace = true →
      ∀ before e after, trace = before ++ e :: after → e.sendsSuccess →
        seen = true ∨ ∃ call ∈ before, succeeded W call = true := by
  induction trace with
  | nil =>
    intro seen _ before e after h
    simp at h
  | cons x rest ih =>
    intro seen hb before e after hsplit hs
    simp only [backedFrom, Bool.and_eq_true] at hb
    obtain ⟨hhead, htail⟩ := hb
    cases before with
    | nil =>
      simp only [List.nil_append, List.cons.injEq] at hsplit
      obtain ⟨hx, -⟩ := hsplit
      subst hx
      obtain ⟨status, data, hx, herr⟩ := sendsSuccess_writeJson x hs
      subst hx
      simp [herr] at hhead
      exact Or.inl hhead
    | cons b before =>
      simp only [List.cons_append, List.cons.injEq] at hsplit
      obtain ⟨hx, hrest⟩ := hsplit
      subst hx
      rcases ih _ htail before e after hrest hs with h | ⟨call, hmem, hcall⟩
      · simp only [Bool.or_eq_true] at h
        rcases h with h | h
        · exact Or.inl h
        · exact Or.inr ⟨x, List.mem_cons_self _ _, h⟩
      · exact Or.inr ⟨call, List.mem_cons_of_mem _ hmem, hcall⟩

theorem successBacked_of_backedFrom (W : World) (trace : List Event)
    (h : backedFrom W false trace = true) : successBacked W trace := by
  intro before e after hsplit hs
  rcases backedFrom_sound W trace false h before e after hsplit hs with h | h
  · simp at h
  · exact h

theorem authenticate_backed (W : World) (a : AuthPayload) :
    backedFrom W false (authenticate W a) = true := by
  unfold authenticate
  simp only []
  split_ifs <;> simp_all [backedFrom, succeeded]

theorem logItem_backed (W : World) (entry : LogPayload) :
    backedFrom W false (logItem W entry) = true := by
  unfold logItem
  simp only []
  split_ifs <;> simp_all [backedFrom, succeeded]

theorem sendMail_backed (W : World) (msg : MailPayload) :
    backedFrom W false (sendMail W msg) = true := by
  unfold sendMail
  simp only []
  split_ifs <;> simp_all [backedFrom, succeeded]

theorem logItemViaRPC_backed (W : World) (l : LogPayload) :
    backedFrom W false (logItemViaRPC W l) = true := by
  unfold logItemViaRPC
  simp only []
  split_ifs <;> simp_all [backedFrom, succeeded]

theorem logEventViaRabbit_backed (W : World) (l : LogPayload) :
    backedFrom W false (logEventViaRabbit W l) = true := by
  unfold logEventViaRabbit pushToQueue
  simp only []
  split_ifs <;> simp_all [backedFrom, succeeded]

theorem LogViaGRPC_backed (W : World) (r : String) :
    backedFrom W false (LogViaGRPC W r) = true := by
  unfold LogViaGRPC
  simp only []
  split_ifs <;> simp_all [backedFrom, succeeded]

theorem HandleSubmission_backed (W : World) (r : String) :
    backedFrom W false (HandleSubmission W r) = true := by
  unfold HandleSubmission
  simp only []
  split_ifs
  · simp [backedFrom]
  · exact authenticate_backed W _
  · exact logItemViaRPC_backed W _
  · exact sendMail_backed W _
  · simp [backedFrom]

/-- C9, as stated, fails: `Broker` sends the envelope
`{error:false, message:"Hit the broker"}` under status 200 and its run holds
no downstream call at all. -/
theorem Broker_success_counterexample :
    Broker = [.writeJson StatusOK { Error := false, Message := "Hit the broker", Data := none }] ∧
    Broker.filter Event.isDownstream = [] ∧
    ¬ successBacked (sampleWorld "" 202 ⟨false, "", none⟩) Broker := by
  refine ⟨rfl, rfl, ?_⟩
  intro h
  have hs : (Event.writeJson StatusOK
      { Error := false, Message := "Hit the broker", Data := none }).sendsSuccess :=
    ⟨0, ⟨StatusOK, { Error := false, Message := "Hit the broker", Data := none }⟩, rfl, rfl⟩
  obtain ⟨call, hmem, -⟩ := h [] _ [] rfl hs
  simp at hmem

/-- C9, amended: every envelope with error=false sent by `HandleSubmission`,
`authenticate`, `logItemViaRPC`, `sendMail`, `logItem`, `logEventViaRabbit` or
`LogViaGRPC` comes after a downstream call of the same run that completed
without error and returned its success signal: status 202 for an HTTP round
trip, a nil error for the RPC call, the gRPC call and the queue publish.
(`Broker`, which calls no service, is left out.) -/
theorem success_envelopes_backed (W : World) (r : String) (a : AuthPayload)
    (l : LogPayload) (msg : MailPayload) :
    successBacked W (HandleSubmission W r) ∧
    successBacked W (authenticate W a) ∧
    successBacked W (logItemViaRPC W l) ∧
    successBacked W (sendMail W msg) ∧
    successBacked W (logItem W l) ∧
    successBacked W (logEventViaRabbit W l) ∧
    successBacked W (LogViaGRPC W r) :=
  ⟨successBacked_of_backedFrom W _ (HandleSubmission_backed W r),
   successBacked_of_backedFrom W _ (authenticate_backed W a),
   successBacked_of_backedFrom W _ (logItemViaRPC_backed W l),
   successBacked_of_backedFrom W _ (sendMail_backed W msg),
   successBacked_of_backedFrom W _ (logItem_backed W l),
   successBacked_of_backedFrom W _ (logEventViaRabbit_backed W l),
   successBacked_of_backedFrom W _ (LogViaGRPC_backed W r)⟩

/-! ## The log-delivery variants -/

/-- C7: for every log payload, `logEventViaRabbit` sends
`{error:false, message:"logged via RabbitMQ"}` (under status 202) exactly when
the emitter is created and the publish succeeds; when the emitter cannot be
created it publishes nothing and sends a failure envelope carrying that error;
when the publish fails it sends a failure envelope carrying the publish error;
a publish happens only after the emitter was created, at most once, and under
the routing key "log.INFO". -/
theorem logEventViaRabbit_outcome (W : World) (l : LogPayload) (generic : Nat) :
    (emitted generic (logEventViaRabbit W l) =
        [some ⟨StatusAccepted,
          { Error := false, Message := "logged via RabbitMQ", Data := none }⟩] ↔
      W.newEventEmitter = none ∧
      W.emitterPush (W.marshalIndent (.log ⟨l.Name, l.Data⟩) "" "\t") "log.INFO" = none) ∧
    (∀ cause, W.newEventEmitter = some cause →
      logEventViaRabbit W l = [.newEventEmitter, .errorJson (some cause) []] ∧
      emitted generic (logEventViaRabbit W l) =
        [some ⟨generic, { Error := true, Message := cause, Data := none }⟩]) ∧
    (∀ cause, W.newEventEmitter = none →
      W.emitterPush (W.marshalIndent (.log ⟨l.Name, l.Data⟩) "" "\t") "log.INFO" = some cause →
      logEventViaRabbit W l =
        [.newEventEmitter,
          .emitterPush (W.marshalIndent (.log ⟨l.Name, l.Data⟩) "" "\t") "log.INFO",
          .errorJson (some cause) []] ∧
      emitted generic (logEventViaRabbit W l) =
        [some ⟨generic, { Error := true, Message := cause, Data := none }⟩]) ∧
    (W.newEventEmitter = none →
      W.emitterPush (W.marshalIndent (.log ⟨l.Name, l.Data⟩) "" "\t") "log.INFO" = none →
      logEventViaRabbit W l =
        [.newEventEmitter,
          .emitterPush (W.marshalIndent (.log ⟨l.Name, l.Data⟩) "" "\t") "log.INFO",
          .writeJson StatusAccepted
            { Error := false, Message := "logged via RabbitMQ", Data := none }]) ∧
    (downstreamCalls (logEventViaRabbit W l)).length ≤ 1 ∧
    (∀ event severity, Event.emitterPush event severity ∈ logEventViaRabbit W l →
      severity = "log.INFO" ∧ W.newEventEmitter = none) := by
  cases hnew : W.newEventEmitter with
  | some cause =>
    simp [logEventViaRabbit, pushToQueue, hnew, emitted, responses, Event.isResponse,
      Event.render, errorJson, writeJson, downstreamCalls, Event.isDownstreamCall]
  | none =>
    cases hpush : W.emitterPush (W.marshalIndent (.log ⟨l.Name, l.Data⟩) "" "\t") "log.INFO" with
    | some cause =>
      simp [logEventViaRabbit, pushToQueue, hnew, hpush, emitted, responses, Event.isResponse,
        Event.render, errorJson, writeJson, downstreamCalls, Event.isDownstreamCall]
    | none =>
      simp [logEventViaRabbit, pushToQueue, hnew, hpush, emitted, responses, Event.isResponse,
        Event.render, errorJson, writeJson, downstreamCalls, Event.isDownstreamCall,
        jsonResponse.zero]

/-- C8: for every log payload, the value each log-delivery variant hands to its
downstream call has the input's name and data: the `RPCPayload` that
`logItemViaRPC` passes to `client.Call`, the `LogPayload` that `pushToQueue`
serializes for `emitter.Push` (through `logEventViaRabbit`), and the
`logs.Log` entry that `LogViaGRPC` passes to `WriteLog`; and each variant does
make that call once its connection is up. -/
theorem log_payload_preserved (W : World) (l : LogPayload) (r : String) :
    (∀ serviceMethod args, Event.rpcCall serviceMethod args ∈ logItemViaRPC W l →
      args.Name = l.Name ∧ args.Data = l.Data) ∧
    (W.rpcDial "tcp" "logger-service:5001" = none →
      Event.rpcCall "RPCServer.LogInfo" ⟨l.Name, l.Data⟩ ∈ logItemViaRPC W l) ∧
    (∀ event severity, Event.emitterPush event severity ∈ logEventViaRabbit W l →
      event = W.marshalIndent (.log ⟨l.Name, l.Data⟩) "" "\t") ∧
    (W.newEventEmitter = none →
      Event.emitterPush (W.marshalIndent (.log ⟨l.Name, l.Data⟩) "" "\t") "log.INFO" ∈
        logEventViaRabbit W l) ∧
    (∀ timeout request, Event.writeLog timeout request ∈ LogViaGRPC W r →
      request.LogEntry.Name = (W.readJson r).1.Log.Name ∧
      request.LogEntry.Data = (W.readJson r).1.Log.Data) ∧
    ((W.readJson r).2 = none → W.grpcDial "logger-service:50001" = none →
      Event.writeLog timeSecond
          ⟨⟨(W.readJson r).1.Log.Name, (W.readJson r).1.Log.Data⟩⟩ ∈ LogViaGRPC W r) := by
  refine ⟨?_, ?_, ?_, ?_, ?_, ?_⟩
  · intro serviceMethod args
    unfold logItemViaRPC
    simp only []
    split_ifs <;> simp <;> rintro - rfl <;> exact ⟨rfl, rfl⟩
  · intro hdial
    unfold logItemViaRPC
    simp only []
    split_ifs <;> simp_all
  · intro event severity
    unfold logEventViaRabbit pushToQueue
    simp only []
    split_ifs <;> simp_all
  · intro hnew
    unfold logEventViaRabbit pushToQueue
    simp only []
    split_ifs <;> simp_all
  · intro timeout request
    unfold LogViaGRPC
    simp only []
    split_ifs <;> simp <;> rintro - rfl <;> exact ⟨rfl, rfl⟩
  · intro hread hdial
    unfold LogViaGRPC
    simp only []
    split_ifs <;> simp_all

/-! ## Further properties of the adapters -/

/-- Every run of every handler calls an envelope writer exactly once. -/
theorem one_response_per_run (W : World) (r : String) (a : AuthPayload) (l : LogPayload)
    (msg : MailPayload) :
    (responses Broker).length = 1 ∧
    (responses (HandleSubmission W r)).length = 1 ∧
    (responses (authenticate W a)).length = 1 ∧
    (responses (logItemViaRPC W l)).length = 1 ∧
    (responses (sendMail W msg)).length = 1 ∧
    (responses (logItem W l)).length = 1 ∧
    (responses (logEventViaRabbit W l)).length = 1 ∧
    (responses (LogViaGRPC W r)).length = 1 := by
  have hauth : ∀ a, (responses (authenticate W a)).length = 1 := by
    intro a
    unfold authenticate responses
    simp only []
    split_ifs <;> simp [Event.isResponse]
  have hrpc : ∀ l, (responses (logItemViaRPC W l)).length = 1 := by
    intro l
    unfold logItemViaRPC responses
    simp only []
    split_ifs <;> simp [Event.isResponse]
  have hmail : ∀ msg, (responses (sendMail W msg)).length = 1 := by
    intro msg
    unfold sendMail responses
    simp only []
    split_ifs <;> simp [Event.isResponse]
  refine ⟨by decide, ?_, hauth a, hrpc l, hmail msg, ?_, ?_, ?_⟩
  · unfold HandleSubmission
    simp only []
    split_ifs
    · simp [responses, Event.isResponse]
    · exact hauth _
    · exact hrpc _
    · exact hmail _
    · simp [responses, Event.isResponse]
  · unfold logItem responses
    simp only []
    split_ifs <;> simp [Event.isResponse]
  · unfold logEventViaRabbit pushToQueue responses
    simp only []
    split_ifs <;> simp [Event.isResponse]
  · unfold LogViaGRPC responses
    simp only []
    split_ifs <;> simp [Event.isResponse]

/-- On a decoded request with the action "log" or "mail", whatever the
downstream does (dial failure, call error, connection failure, any status),
`HandleSubmission` sends exactly one well-formed envelope: no run hands the
envelope writer a nil error. -/
theorem HandleSubmission_log_mail_well_formed (W : World) (r : String) (generic : Nat)
    (hread : (W.readJson r).2 = none)
    (haction : (W.readJson r).1.Action = "log" ∨ (W.readJson r).1.Action = "mail") :
    ∃ written, emitted generic (HandleSubmission W r) = [some written] := by
  rcases haction with h | h
  · have hrun : HandleSubmission W r = logItemViaRPC W (W.readJson r).1.Log := by
      simp [HandleSubmission, hread, h]
    rw [hrun]
    unfold logItemViaRPC
    simp only []
    split_ifs with h1 h2
    · obtain ⟨cause, hc⟩ := Option.ne_none_iff_exists'.mp h1
      simp [emitted, responses, Event.isResponse, Event.render, errorJson, hc]
    · obtain ⟨cause, hc⟩ := Option.ne_none_iff_exists'.mp h2
      simp [emitted, responses, Event.isResponse, Event.render, errorJson, hc]
    · simp [emitted, responses, Event.isResponse, Event.render]
  · have hrun : HandleSubmission W r = sendMail W (W.readJson r).1.Mail := by
      simp [HandleSubmission, hread, h]
    rw [hrun]
    unfold sendMail
    simp only []
    split_ifs with h1 h2 h3
    · obtain ⟨cause, hc⟩ := Option.ne_none_iff_exists'.mp h1
      simp [emitted, responses, Event.isResponse, Event.render, errorJson, hc]
    · obtain ⟨cause, hc⟩ := Option.ne_none_iff_exists'.mp h2
      simp [emitted, responses, Event.isResponse, Event.render, errorJson, hc]
    · simp [emitted, responses, Event.isResponse, Event.render, errorJson, errorsNew]
    · simp [emitted, responses, Event.isResponse, Event.render]

/-- The actions "log" and "mail" at concrete inputs: the RPC server answers
"Processed", the mail service answers 500. -/
theorem HandleSubmission_log_mail_well_formed_witness :
    (∃ written, emitted 400 (HandleSubmission (sampleWorld "log" 202 ⟨false, "", none⟩) "r") =
      [some written]) ∧
    (∃ written, emitted 400 (HandleSubmission (sampleWorld "mail" 500 ⟨false, "", none⟩) "r") =
      [some written]) :=
  ⟨HandleSubmission_log_mail_well_formed (sampleWorld "log" 202 ⟨false, "", none⟩) "r" 400
      rfl (Or.inl rfl),
   HandleSubmission_log_mail_well_formed (sampleWorld "mail" 500 ⟨false, "", none⟩) "r" 400
      rfl (Or.inr rfl)⟩

/-- When the request is built and the round trip completes with a status other
than 202, `sendMail` sends exactly one envelope, with error=true and the
message "error calling mail service", and no success envelope. -/
theorem sendMail_bad_status (W : World) (msg : MailPayload) (generic : Nat)
    (hnew : W.newRequestErr "POST" "http://mailer-service/send" = none)
    (hdo : (W.clientDo ⟨"POST", "http://mailer-service/send",
      W.marshalIndent (.mail msg) "" "\t", [("Content-Type", "application/json")]⟩).2 = none)
    (hstatus : (W.clientDo ⟨"POST", "http://mailer-service/send",
      W.marshalIndent (.mail msg) "" "\t",
      [("Content-Type", "application/json")]⟩).1.StatusCode ≠ StatusAccepted) :
    emitted generic (sendMail W msg) =
      [some ⟨generic, { Error := true, Message := "error calling mail service", Data := none }⟩] := by
  simp [sendMail, HttpRequest.headerSet, hnew, hdo, hstatus, emitted, responses,
    Event.isResponse, Event.render, errorJson, writeJson, errorsNew]

/-- The mail service answers 500 at a concrete input. -/
theorem sendMail_bad_status_witness :
    emitted 400 (sendMail (sampleWorld "mail" 500 ⟨false, "", none⟩)
        ⟨"me@example.com", "you@example.com", "Hello", "Hi there"⟩) =
      [some ⟨400, { Error := true, Message := "error calling mail service", Data := none }⟩] :=
  sendMail_bad_status (sampleWorld "mail" 500 ⟨false, "", none⟩)
    ⟨"me@example.com", "you@example.com", "Hello", "Hi there"⟩ 400 rfl rfl (by decide)

/-- The downstream request of each HTTP adapter, whenever the adapter reaches
`client.Do`: a POST to the adapter's fixed URL whose body is the
`json.MarshalIndent` serialization of the payload; `logItem` and `sendMail`
set exactly the header `Content-Type: application/json`. -/
theorem http_adapter_requests (W : World) (a : AuthPayload) (l : LogPayload)
    (msg : MailPayload) :
    (W.newRequestErr "POST" "http://logger-service/log" = none →
      downstreamCalls (logItem W l) =
        [.clientDo ⟨"POST", "http://logger-service/log", W.marshalIndent (.log l) "" "\t",
          [("Content-Type", "application/json")]⟩]) ∧
    (W.newRequestErr "POST" "http://mailer-service/send" = none →
      downstreamCalls (sendMail W msg) =
        [.clientDo ⟨"POST", "http://mailer-service/send", W.marshalIndent (.mail msg) "" "\t",
          [("Content-Type", "application/json")]⟩]) ∧
    (W.newRequestErr "POST" "http://authentication-service/authenticate" = none →
      ∃ header, downstreamCalls (authenticate W a) =
        [.clientDo ⟨"POST", "http://authentication-service/authenticate",
          W.marshalIndent (.auth a) "" "\t", header⟩]) := by
  refine ⟨?_, ?_, ?_⟩
  · intro hnew
    unfold logItem downstreamCalls
    simp only []
    split_ifs <;> simp_all [Event.isDownstreamCall, HttpRequest.headerSet]
  · intro hnew
    unfold sendMail downstreamCalls
    simp only []
    split_ifs <;> simp_all [Event.isDownstreamCall, HttpRequest.headerSet]
  · intro hnew
    refine ⟨[], ?_⟩
    unfold authenticate downstreamCalls
    simp only []
    split_ifs <;> simp_all [Event.isDownstreamCall]

end BrokerService
